import Mathlib

/-!
Verification development for the ogen repository: a shallow embedding of its
configuration resolver (environment variables, optional dotenv file,
command-line flags) and of its lifecycle coordinator (cancellation, teardown,
emitting task), with theorems settling the specification claims.

Conventions of the embedding:
* The process environment is a partial map from variable names to values
  (`none` = unset), matching what the Go code observes through os.Getenv
  (which returns the empty string for unset variables) and through os.Environ
  (which distinguishes unset from set-to-empty, as godotenv does).
* The Go flag package is modelled by a registry associating a flag name with
  the Config field its registered pointer targets, plus a counter of how many
  times the argument vector has been parsed.  flag.StringVar writes the
  default into the target at registration time; flag.Parse assigns each
  explicitly passed flag to its registered target, in order, later
  occurrences overriding earlier ones, and errors on an unknown flag name.
* The dotenv file at a path is modelled as absent (`none`), malformed
  (`some (Except.error msg)`), or parsed into a key/value map
  (`some (Except.ok pairs)`, later duplicate keys overriding earlier ones,
  as in godotenv's parsed map).  godotenv.Load only sets variables that are
  not already present in the environment.
* errors.Join of per-field validation errors is modelled as the list of the
  per-field messages, in the order the Go code joins them; a `nil` joined
  error corresponds to the empty list.
-/

namespace Ogen

/-- The configuration struct of the service (Config in the Go source). -/
structure Config where
  CollectorGRPCURL : String
  CollectorHTTPURL : String
  ServiceName : String
  PprofURL : String
  MetricsPort : Nat
  TracerPort : Nat
  LoggerPort : Nat
deriving DecidableEq

/-- The process environment: a partial map from names to values. -/
def Env : Type := String → Option String

/-- os.Getenv: the empty string stands for an unset variable. -/
def getenv (e : Env) (k : String) : String := (e k).getD ""

/-- Lookup in a key/value list where a later binding overrides an earlier
one, as in a Go map populated by iterating the list in order. -/
def envMapLookup : List (String × String) → String → Option String
  | [], _ => none
  | p :: rest, k =>
    match envMapLookup rest k with
    | some v => some v
    | none => if p.1 = k then some p.2 else none

/-- godotenv.Load merging: a file pair is installed only for keys that are
not already present in the process environment (environment wins over file). -/
def dotenvMerge (e : Env) (ps : List (String × String)) : Env :=
  fun k =>
    match e k with
    | some v => some v
    | none => envMapLookup ps k

/-- The four string-typed Config fields that registerFlag can target (only
string fields can be passed to flag.StringVar). -/
inductive CField where
  | grpc
  | http
  | svc
  | pprof
deriving DecidableEq

/-- Read the Config field targeted by a flag registration. -/
def CField.get : CField → Config → String
  | .grpc, c => c.CollectorGRPCURL
  | .http, c => c.CollectorHTTPURL
  | .svc, c => c.ServiceName
  | .pprof, c => c.PprofURL

/-- Write the Config field targeted by a flag registration. -/
def CField.set : CField → Config → String → Config
  | .grpc, c, v => { c with CollectorGRPCURL := v }
  | .http, c, v => { c with CollectorHTTPURL := v }
  | .svc, c, v => { c with ServiceName := v }
  | .pprof, c, v => { c with PprofURL := v }

/-- The flag name of each field as registered by loadConfig. -/
def nameOf : CField → String
  | .grpc => "collectorgrpcurl"
  | .http => "collectorhttpurl"
  | .svc => "servicename"
  | .pprof => "pprofurl"

/-- The flag registry: flag name paired with the Config field its registered
pointer targets (the registeredFlags map and the flag package registry of the
Go source, which the source keeps in sync). -/
def lookupFlag : List (String × CField) → String → Option CField
  | [], _ => none
  | p :: rest, n => if p.1 = n then some p.2 else lookupFlag rest n

/-- Process-wide mutable state touched by the configuration resolver: the
environment, the flag registry, the Config being populated (the same Config
object across resolver calls, as in the repository's test), and the number
of times flag.Parse has processed the argument vector. -/
structure PState where
  env : Env
  registry : List (String × CField)
  cfg : Config
  parseCount : Nat

/-- registerFlag from the Go source: read the environment default, register
the flag once (flag.StringVar writes the default through the pointer), and
then unconditionally re-apply a non-empty environment default to the field. -/
def registerFlag (name : String) (fld : CField) (s : PState) : PState :=
  let defaultValue := getenv s.env name
  let s1 :=
    if (lookupFlag s.registry name).isNone then
      { s with registry := s.registry ++ [(name, fld)],
               cfg := fld.set s.cfg defaultValue }
    else s
  if defaultValue ≠ "" then { s1 with cfg := fld.set s1.cfg defaultValue } else s1

/-- flag.Parse assignment loop: explicitly passed flags are written to their
registered targets in order; an unknown flag name aborts with that name. -/
def flagApply : PState → List (String × String) → PState × Option String
  | s, [] => (s, none)
  | s, a :: rest =>
    match lookupFlag s.registry a.1 with
    | some fld => flagApply { s with cfg := fld.set s.cfg a.2 } rest
    | none => (s, some a.1)

/-- flag.Parse: processes the argument vector (counted once per invocation). -/
def flagParse (args : List (String × String)) (s : PState) : PState × Option String :=
  flagApply { s with parseCount := s.parseCount + 1 } args

def msgGrpc : String := "collector grpc endpoint required"
def msgHttp : String := "collector http endpoint required"
def msgSvc : String := "service name required"
def msgPprof : String := "pprof endpoint required"

/-- Config.validate: the list of per-field error messages joined by
errors.Join (empty list = nil error). -/
def Config.validate (c : Config) : List String :=
  (if c.CollectorGRPCURL = "" then [msgGrpc] else []) ++
  (if c.CollectorHTTPURL = "" then [msgHttp] else []) ++
  (if c.ServiceName = "" then [msgSvc] else []) ++
  (if c.PprofURL = "" then [msgPprof] else [])

/-- The errors loadConfig can surface: a wrapped dotenv load failure, an
unknown command-line flag (flag.Parse failure), or the joined validation
error with one message per empty required field. -/
inductive LoadError where
  | dotenvFail (msg : String)
  | unknownFlag (name : String)
  | invalid (msgs : List String)
deriving DecidableEq

/-- Path defaulting of loadConfig: the empty path means ".env". -/
def resolvePath (path : String) : String := if path = "" then ".env" else path

/-- The filesystem as seen by os.Stat and godotenv.Load: at each path there
is no file (`none`, also covering a failing stat), a malformed file
(`some (Except.error msg)`), or a parsed key/value map. -/
def FS : Type := String → Option (Except String (List (String × String)))

/-- The four flag registrations performed by loadConfig, in source order. -/
def standardFlags : List (String × CField) :=
  [("collectorgrpcurl", CField.grpc), ("collectorhttpurl", CField.http),
   ("servicename", CField.svc), ("pprofurl", CField.pprof)]

/-- The four registerFlag calls of loadConfig, in source order. -/
def registerAll (s : PState) : PState :=
  registerFlag "pprofurl" CField.pprof
    (registerFlag "servicename" CField.svc
      (registerFlag "collectorhttpurl" CField.http
        (registerFlag "collectorgrpcurl" CField.grpc s)))

/-- The tail of loadConfig after the dotenv step: register the four flags,
parse the argument vector, and validate. -/
def loadConfigRest (args : List (String × String)) (s : PState) : PState × Option LoadError :=
  match flagParse args (registerAll s) with
  | (s1, some n) => (s1, some (LoadError.unknownFlag n))
  | (s1, none) =>
    if s1.cfg.validate = [] then (s1, none)
    else (s1, some (LoadError.invalid s1.cfg.validate))

/-- loadConfig from the Go source: default the path, stat the file, load and
merge the dotenv file when present (aborting on a malformed file with a
wrapped error before any flag registration), then register flags, parse the
argument vector and validate. -/
def loadConfig (fs : FS) (args : List (String × String)) (path : String) (s : PState) :
    PState × Option LoadError :=
  match fs (resolvePath path) with
  | some (Except.error m) => (s, some (LoadError.dotenvFail ("loading .env file: " ++ m)))
  | some (Except.ok ps) => loadConfigRest args { s with env := dotenvMerge s.env ps }
  | none => loadConfigRest args s

/-- The dotenv-merge step of loadConfig in isolation. -/
def mergedState (fs : FS) (path : String) (s : PState) : PState :=
  match fs (resolvePath path) with
  | some (Except.ok ps) => { s with env := dotenvMerge s.env ps }
  | _ => s

/-- States the resolver is actually run from in this program: before any
registration, or after the four standard registrations. -/
def goodState (s : PState) : Prop :=
  s.registry = [] ∨ s.registry = standardFlags

/-- Argument vectors that only pass the four registered flags (any other
name makes flag.Parse fail, which in the Go program exits the process). -/
def argsOK (args : List (String × String)) : Prop :=
  ∀ a ∈ args, (lookupFlag standardFlags a.1).isSome

/-- The value a registered field resolves to: the last explicitly passed
flag occurrence if any, otherwise a non-empty environment default,
otherwise the empty string on a fresh registration (flag.StringVar wrote the
empty default) or the field's prior value on a re-registration. -/
def resolveOne (fresh : Bool) (e : Env) (args : List (String × String))
    (n : String) (old : String) : String :=
  match envMapLookup args n with
  | some v => v
  | none => if getenv e n = "" then (if fresh then "" else old) else getenv e n

/-! ## Lifecycle coordinator embedding (main.go)

The three concurrent tasks launched by main — servePprof, handleTermination
and generateData — share a cancellable context.  We embed them as a
nondeterministic transition system over a system state; each constructor of
`Step` is one atomic action a task (or the outside world: an external
cancel, an OS interrupt delivery) can take, with the guards the Go code
imposes.  rand.Intn(10) is modelled as a nondeterministic choice of a value
in [0, 10), its documented contract. -/

/-- The teardown callbacks, identified by provider. -/
inductive TEvent where
  | ppfClose
  | logShutdown
  | traceShutdown
  | metricsShutdown
deriving DecidableEq

/-- The fixed order of the teardown closure in main: close the pprof server,
then shut down the log, trace and metrics providers. -/
def teardownSeq : List TEvent :=
  [TEvent.ppfClose, TEvent.logShutdown, TEvent.traceShutdown, TEvent.metricsShutdown]

/-- The result of the setup phase of generateData: an early return after a
counter construction failure (logged as an error), or entry into the roll
loop with the keys of the rollFreq map. -/
inductive SetupResult where
  | earlyReturn (name : String)
  | enterLoop (keys : List Int)
deriving DecidableEq

/-- The name of the per-value roll counter, as formatted by generateData. -/
def rollCounterName (i : Int) : String := "roll-" ++ toString i ++ "-count"

/-- The `for idx := 0; idx < 11; idx++` counter-construction loop of
generateData: on the first failing counter it returns early with that
counter's name, otherwise it accumulates the registered keys in order. -/
def setupRollLoop (ok : String → Bool) : Nat → Int → List Int → SetupResult
  | 0, _, acc => SetupResult.enterLoop acc
  | fuel + 1, idx, acc =>
    if ok (rollCounterName idx) then setupRollLoop ok fuel (idx + 1) (acc ++ [idx])
    else SetupResult.earlyReturn (rollCounterName idx)

/-- The setup phase of generateData: construct the dice-rolls counter, then
the eleven per-value counters; any failure causes an early return before the
roll loop. `ok` tells which counter constructions succeed. -/
def generateDataSetup (ok : String → Bool) : SetupResult :=
  if ok "dice-rolls" then setupRollLoop ok 11 0 [] else SetupResult.earlyReturn "dice-rolls"

/-- System state of the lifecycle coordinator: the shared cancellation flag,
interrupt signals pending in the buffered channel, whether the termination
listener has returned, how many times the teardown closure ran and which
callbacks it invoked (in order), whether the pprof task and the emitting
task have returned, and the rolls generated so far. -/
structure SysState where
  cancelled : Bool
  pendingInterrupts : Nat
  handlerDone : Bool
  teardownRuns : Nat
  tornDown : List TEvent
  pprofDone : Bool
  emitterDone : Bool
  rolls : List Int
deriving DecidableEq

/-- The initial system state, as set up by main before launching the tasks. -/
def initSys : SysState :=
  { cancelled := false, pendingInterrupts := 0, handlerDone := false,
    teardownRuns := 0, tornDown := [], pprofDone := false,
    emitterDone := false, rolls := [] }

/-- One atomic action of the system.  The handler steps mirror the select
loop of handleTermination: on a pending interrupt it calls cancel() and
loops; on an already-cancelled context it runs the teardown closure (all
four callbacks, in order) and returns.  The emitter steps mirror
generateData: an early return when the setup phase failed, one roll per
iteration while the context is not cancelled (the select default branch is
only taken when ctx.Done is not ready), and a return once cancellation is
observed.  The pprof task returns after the server has been closed, which
the teardown closure does. -/
inductive Step (ok : String → Bool) : SysState → SysState → Prop where
  | externalCancel (s : SysState) :
      Step ok s { s with cancelled := true }
  | interruptArrive (s : SysState) :
      Step ok s { s with pendingInterrupts := s.pendingInterrupts + 1 }
  | handlerInterrupt (s : SysState) :
      s.handlerDone = false → 0 < s.pendingInterrupts →
      Step ok s { s with pendingInterrupts := s.pendingInterrupts - 1, cancelled := true }
  | handlerCancel (s : SysState) :
      s.handlerDone = false → s.cancelled = true →
      Step ok s { s with handlerDone := true, teardownRuns := s.teardownRuns + 1,
                         tornDown := s.tornDown ++ teardownSeq }
  | emitterSetupFail (s : SysState) (n : String) :
      s.emitterDone = false → generateDataSetup ok = SetupResult.earlyReturn n →
      Step ok s { s with emitterDone := true }
  | emitterRoll (s : SysState) (keys : List Int) (r : Int) :
      s.emitterDone = false → s.cancelled = false →
      generateDataSetup ok = SetupResult.enterLoop keys → 0 ≤ r → r < 10 →
      Step ok s { s with rolls := s.rolls ++ [r] }
  | emitterCancel (s : SysState) :
      s.emitterDone = false → s.cancelled = true →
      Step ok s { s with emitterDone := true }
  | pprofStop (s : SysState) :
      s.pprofDone = false → s.handlerDone = true →
      Step ok s { s with pprofDone := true }

/-- Reachability from the initial state under the step relation. -/
inductive Reachable (ok : String → Bool) : SysState → Prop where
  | init : Reachable ok initSys
  | step {s t : SysState} : Reachable ok s → Step ok s t → Reachable ok t

/-- The delay, in seconds, that rollDice sleeps for a given roll, following
the switch statement of the Go source (time.Second for the 0 and 1 cases,
time.Second * (roll/2) for the even and remaining odd cases, with Go's
truncating integer division). -/
def sleepSeconds (roll : Int) : Int :=
  if roll = 0 then 1
  else if roll % 2 = 0 then roll / 2
  else if roll = 1 then 1
  else roll / 2

/-! ## Concrete fixtures used by witnesses and counterexamples -/

/-- An environment holding all four required variables. -/
def env4 : Env := fun k =>
  if k = "collectorgrpcurl" then some "localhost:4317"
  else if k = "collectorhttpurl" then some "localhost:4318"
  else if k = "servicename" then some "ogen"
  else if k = "pprofurl" then some "localhost:1777"
  else none

/-- An empty environment. -/
def env0 : Env := fun _ => none

/-- A filesystem with no files anywhere. -/
def fsNone : FS := fun _ => none

/-- A filesystem with a malformed file at ".env". -/
def fsBad : FS := fun p => if p = ".env" then some (Except.error "bad line") else none

/-- A filesystem with a well-formed dotenv file at ".env" setting all four
keys. -/
def fsGood : FS := fun p =>
  if p = ".env" then
    some (Except.ok
      [("collectorgrpcurl", "filegrpc"), ("collectorhttpurl", "filehttp"),
       ("servicename", "filesvc"), ("pprofurl", "filepprof")])
  else none

/-- The zero-valued Config main starts from. -/
def emptyConfig : Config := ⟨"", "", "", "", 0, 0, 0⟩

/-- The process state at startup with all four variables in the environment. -/
def initState : PState :=
  { env := env4, registry := [], cfg := emptyConfig, parseCount := 0 }

/-- The process state at startup with an empty environment. -/
def initState0 : PState :=
  { env := env0, registry := [], cfg := emptyConfig, parseCount := 0 }

/-- The state after the first resolver call of the C3 scenario. -/
def c3State : PState := (loadConfig fsNone [] "" initState).1

/-- A counter-construction oracle where everything succeeds. -/
def okAll : String → Bool := fun _ => true

/-- A counter-construction oracle where the dice-rolls counter fails. -/
def okFailDice : String → Bool := fun n => !(n = "dice-rolls")

/-- The list of consecutive integers idx, idx+1, ..., idx+n-1, as produced
by the counter-registration loop of generateData. -/
def intsFrom (idx : Int) : Nat → List Int
  | 0 => []
  | n + 1 => idx :: intsFrom (idx + 1) n

/-- The system state after a completed shutdown of the termination listener:
cancellation fired, teardown ran once invoking the callbacks in order, and
the listener returned. -/
def sShutdown : SysState :=
  { cancelled := true, pendingInterrupts := 0, handlerDone := true,
    teardownRuns := 1, tornDown := teardownSeq, pprofDone := false,
    emitterDone := false, rolls := [] }

/-! ## Basic lemmas about fields, registration and parsing -/

theorem get_set (f : CField) (c : Config) (v : String) : f.get (f.set c v) = v := by
  cases f <;> rfl

theorem get_set_ne (f g : CField) (h : g ≠ f) (c : Config) (v : String) :
    g.get (f.set c v) = g.get c := by
  cases f <;> cases g <;> first | rfl | exact absurd rfl h

theorem set_metrics (f : CField) (c : Config) (v : String) :
    (f.set c v).MetricsPort = c.MetricsPort := by
  cases f <;> rfl

theorem set_tracer (f : CField) (c : Config) (v : String) :
    (f.set c v).TracerPort = c.TracerPort := by
  cases f <;> rfl

theorem set_logger (f : CField) (c : Config) (v : String) :
    (f.set c v).LoggerPort = c.LoggerPort := by
  cases f <;> rfl

theorem set_set (f : CField) (c : Config) (v : String) :
    f.set (f.set c v) v = f.set c v := by
  cases f <;> rfl

theorem registerFlag_env (n : String) (f : CField) (s : PState) :
    (registerFlag n f s).env = s.env := by
  simp only [registerFlag]
  split_ifs <;> rfl

theorem registerFlag_parseCount (n : String) (f : CField) (s : PState) :
    (registerFlag n f s).parseCount = s.parseCount := by
  simp only [registerFlag]
  split_ifs <;> rfl

theorem registerFlag_registry (n : String) (f : CField) (s : PState) :
    (registerFlag n f s).registry =
      if (lookupFlag s.registry n).isNone then s.registry ++ [(n, f)] else s.registry := by
  simp only [registerFlag]
  split_ifs <;> simp_all

theorem registerFlag_get_ne (n : String) (f g : CField) (h : g ≠ f) (s : PState) :
    g.get (registerFlag n f s).cfg = g.get s.cfg := by
  simp only [registerFlag]
  split_ifs <;> simp_all [get_set_ne _ _ h]

theorem registerFlag_metrics (n : String) (f : CField) (s : PState) :
    (registerFlag n f s).cfg.MetricsPort = s.cfg.MetricsPort := by
  simp only [registerFlag]
  split_ifs <;> simp_all [set_metrics]

theorem registerFlag_tracer (n : String) (f : CField) (s : PState) :
    (registerFlag n f s).cfg.TracerPort = s.cfg.TracerPort := by
  simp only [registerFlag]
  split_ifs <;> simp_all [set_tracer]

theorem registerFlag_logger (n : String) (f : CField) (s : PState) :
    (registerFlag n f s).cfg.LoggerPort = s.cfg.LoggerPort := by
  simp only [registerFlag]
  split_ifs <;> simp_all [set_logger]

theorem registerFlag_get_fresh (n : String) (f : CField) (s : PState)
    (h : lookupFlag s.registry n = none) :
    f.get (registerFlag n f s).cfg = getenv s.env n := by
  simp only [registerFlag, h, Option.isNone_none, if_true]
  split_ifs <;> simp [get_set, set_set]

theorem registerFlag_get_reg (n : String) (f : CField) (s : PState)
    (h : (lookupFlag s.registry n).isSome) :
    f.get (registerFlag n f s).cfg =
      if getenv s.env n = "" then f.get s.cfg else getenv s.env n := by
  have h' : (lookupFlag s.registry n).isNone = false := by
    cases hx : lookupFlag s.registry n <;> simp_all
  simp only [registerFlag, h', Bool.false_eq_true, if_false]
  split_ifs <;> simp_all [get_set]

theorem nameOf_inj (f g : CField) (h : nameOf f = nameOf g) : f = g := by
  revert h
  cases f <;> cases g <;> decide

theorem lookup_standard_name (n : String) (f : CField)
    (h : lookupFlag standardFlags n = some f) : n = nameOf f := by
  simp only [standardFlags, lookupFlag] at h
  split_ifs at h with h1 h2 h3 h4
  · injection h with h
    subst h
    exact h1.symm
  · injection h with h
    subst h
    exact h2.symm
  · injection h with h
    subst h
    exact h3.symm
  · injection h with h
    subst h
    exact h4.symm

theorem lookup_standard_nameOf (f : CField) :
    lookupFlag standardFlags (nameOf f) = some f := by
  cases f <;> decide

/-! ### registerAll characterization -/

theorem registerAll_env (s : PState) : (registerAll s).env = s.env := by
  simp [registerAll, registerFlag_env]

theorem registerAll_parseCount (s : PState) : (registerAll s).parseCount = s.parseCount := by
  simp [registerAll, registerFlag_parseCount]

theorem registerAll_metrics (s : PState) :
    (registerAll s).cfg.MetricsPort = s.cfg.MetricsPort := by
  simp [registerAll, registerFlag_metrics]

theorem registerAll_tracer (s : PState) :
    (registerAll s).cfg.TracerPort = s.cfg.TracerPort := by
  simp [registerAll, registerFlag_tracer]

theorem registerAll_logger (s : PState) :
    (registerAll s).cfg.LoggerPort = s.cfg.LoggerPort := by
  simp [registerAll, registerFlag_logger]

theorem registerAll_registry_empty (s : PState) (h : s.registry = []) :
    (registerAll s).registry = standardFlags := by
  obtain ⟨e, reg, c, pc⟩ := s
  simp only at h
  subst h
  simp only [registerAll, registerFlag, apply_ite PState.registry, apply_ite PState.env]
  norm_num [lookupFlag, standardFlags]
  decide

theorem registerAll_registry_std (s : PState) (h : s.registry = standardFlags) :
    (registerAll s).registry = standardFlags := by
  have k1 : (registerFlag "collectorgrpcurl" CField.grpc s).registry = standardFlags := by
    rw [registerFlag_registry, h]
    decide
  have k2 : (registerFlag "collectorhttpurl" CField.http
      (registerFlag "collectorgrpcurl" CField.grpc s)).registry = standardFlags := by
    rw [registerFlag_registry, k1]
    decide
  have k3 : (registerFlag "servicename" CField.svc (registerFlag "collectorhttpurl" CField.http
      (registerFlag "collectorgrpcurl" CField.grpc s))).registry = standardFlags := by
    rw [registerFlag_registry, k2]
    decide
  rw [registerAll, registerFlag_registry, k3]
  decide

theorem registerAll_registry (s : PState) (hg : goodState s) :
    (registerAll s).registry = standardFlags := by
  rcases hg with h | h
  · exact registerAll_registry_empty s h
  · exact registerAll_registry_std s h

theorem registerAll_get_empty (s : PState) (h : s.registry = []) (f : CField) :
    f.get (registerAll s).cfg = getenv s.env (nameOf f) := by
  have hreg1 : (registerFlag "collectorgrpcurl" CField.grpc s).registry =
      [("collectorgrpcurl", CField.grpc)] := by
    rw [registerFlag_registry, h]
    decide
  have henv1 : (registerFlag "collectorgrpcurl" CField.grpc s).env = s.env :=
    registerFlag_env _ _ _
  have hreg2 : (registerFlag "collectorhttpurl" CField.http
      (registerFlag "collectorgrpcurl" CField.grpc s)).registry =
      [("collectorgrpcurl", CField.grpc), ("collectorhttpurl", CField.http)] := by
    rw [registerFlag_registry, hreg1]
    decide
  have henv2 : (registerFlag "collectorhttpurl" CField.http
      (registerFlag "collectorgrpcurl" CField.grpc s)).env = s.env := by
    rw [registerFlag_env, henv1]
  have hreg3 : (registerFlag "servicename" CField.svc (registerFlag "collectorhttpurl" CField.http
      (registerFlag "collectorgrpcurl" CField.grpc s))).registry =
      [("collectorgrpcurl", CField.grpc), ("collectorhttpurl", CField.http),
       ("servicename", CField.svc)] := by
    rw [registerFlag_registry, hreg2]
    decide
  have henv3 : (registerFlag "servicename" CField.svc (registerFlag "collectorhttpurl" CField.http
      (registerFlag "collectorgrpcurl" CField.grpc s))).env = s.env := by
    rw [registerFlag_env, henv2]
  cases f
  case grpc =>
    rw [registerAll, registerFlag_get_ne _ _ _ (by decide),
      registerFlag_get_ne _ _ _ (by decide), registerFlag_get_ne _ _ _ (by decide),
      registerFlag_get_fresh _ _ _ (by rw [h]; rfl)]
    rfl
  case http =>
    rw [registerAll, registerFlag_get_ne _ _ _ (by decide),
      registerFlag_get_ne _ _ _ (by decide),
      registerFlag_get_fresh _ _ _ (by rw [hreg1]; decide), henv1]
    rfl
  case svc =>
    rw [registerAll, registerFlag_get_ne _ _ _ (by decide),
      registerFlag_get_fresh _ _ _ (by rw [hreg2]; decide), henv2]
    rfl
  case pprof =>
    rw [registerAll, registerFlag_get_fresh _ _ _ (by rw [hreg3]; decide), henv3]
    rfl

theorem registerAll_get_std (s : PState) (h : s.registry = standardFlags) (f : CField) :
    f.get (registerAll s).cfg =
      if getenv s.env (nameOf f) = "" then f.get s.cfg else getenv s.env (nameOf f) := by
  have hreg1 : (registerFlag "collectorgrpcurl" CField.grpc s).registry = standardFlags := by
    rw [registerFlag_registry, h]
    decide
  have henv1 : (registerFlag "collectorgrpcurl" CField.grpc s).env = s.env :=
    registerFlag_env _ _ _
  have hreg2 : (registerFlag "collectorhttpurl" CField.http
      (registerFlag "collectorgrpcurl" CField.grpc s)).registry = standardFlags := by
    rw [registerFlag_registry, hreg1]
    decide
  have henv2 : (registerFlag "collectorhttpurl" CField.http
      (registerFlag "collectorgrpcurl" CField.grpc s)).env = s.env := by
    rw [registerFlag_env, henv1]
  have hreg3 : (registerFlag "servicename" CField.svc (registerFlag "collectorhttpurl" CField.http
      (registerFlag "collectorgrpcurl" CField.grpc s))).registry = standardFlags := by
    rw [registerFlag_registry, hreg2]
    decide
  have henv3 : (registerFlag "servicename" CField.svc (registerFlag "collectorhttpurl" CField.http
      (registerFlag "collectorgrpcurl" CField.grpc s))).env = s.env := by
    rw [registerFlag_env, henv2]
  cases f
  case grpc =>
    rw [registerAll, registerFlag_get_ne _ _ _ (by decide),
      registerFlag_get_ne _ _ _ (by decide), registerFlag_get_ne _ _ _ (by decide),
      registerFlag_get_reg _ _ _ (by rw [h]; decide)]
    rfl
  case http =>
    rw [registerAll, registerFlag_get_ne _ _ _ (by decide),
      registerFlag_get_ne _ _ _ (by decide),
      registerFlag_get_reg _ _ _ (by rw [hreg1]; decide), henv1,
      registerFlag_get_ne _ _ _ (by decide)]
    rfl
  case svc =>
    rw [registerAll, registerFlag_get_ne _ _ _ (by decide),
      registerFlag_get_reg _ _ _ (by rw [hreg2]; decide), henv2,
      registerFlag_get_ne _ _ _ (by decide), registerFlag_get_ne _ _ _ (by decide)]
    rfl
  case pprof =>
    rw [registerAll, registerFlag_get_reg _ _ _ (by rw [hreg3]; decide), henv3,
      registerFlag_get_ne _ _ _ (by decide), registerFlag_get_ne _ _ _ (by decide),
      registerFlag_get_ne _ _ _ (by decide)]
    rfl

theorem registerAll_get (s : PState) (hg : goodState s) (f : CField) :
    f.get (registerAll s).cfg =
      if getenv s.env (nameOf f) = ""
      then (if s.registry.isEmpty then "" else f.get s.cfg)
      else getenv s.env (nameOf f) := by
  rcases hg with h | h
  · rw [registerAll_get_empty s h, h]
    by_cases hd : getenv s.env (nameOf f) = "" <;> simp [hd]
  · rw [registerAll_get_std s h, h]
    rfl

/-! ### flagApply characterization -/

theorem flagApply_env (s : PState) (args : List (String × String)) :
    (flagApply s args).1.env = s.env := by
  induction args generalizing s with
  | nil => rfl
  | cons a rest ih =>
    simp only [flagApply]
    cases h : lookupFlag s.registry a.1 with
    | some fld => simpa using ih _
    | none => rfl

theorem flagApply_registry (s : PState) (args : List (String × String)) :
    (flagApply s args).1.registry = s.registry := by
  induction args generalizing s with
  | nil => rfl
  | cons a rest ih =>
    simp only [flagApply]
    cases h : lookupFlag s.registry a.1 with
    | some fld => simpa using ih _
    | none => rfl

theorem flagApply_parseCount (s : PState) (args : List (String × String)) :
    (flagApply s args).1.parseCount = s.parseCount := by
  induction args generalizing s with
  | nil => rfl
  | cons a rest ih =>
    simp only [flagApply]
    cases h : lookupFlag s.registry a.1 with
    | some fld => simpa using ih _
    | none => rfl

theorem flagApply_metrics (s : PState) (args : List (String × String)) :
    (flagApply s args).1.cfg.MetricsPort = s.cfg.MetricsPort := by
  induction args generalizing s with
  | nil => rfl
  | cons a rest ih =>
    simp only [flagApply]
    cases h : lookupFlag s.registry a.1 with
    | some fld =>
      have := ih ({ s with cfg := fld.set s.cfg a.2 })
      simpa [set_metrics] using this
    | none => rfl

theorem flagApply_tracer (s : PState) (args : List (String × String)) :
    (flagApply s args).1.cfg.TracerPort = s.cfg.TracerPort := by
  induction args generalizing s with
  | nil => rfl
  | cons a rest ih =>
    simp only [flagApply]
    cases h : lookupFlag s.registry a.1 with
    | some fld =>
      have := ih ({ s with cfg := fld.set s.cfg a.2 })
      simpa [set_tracer] using this
    | none => rfl

theorem flagApply_logger (s : PState) (args : List (String × String)) :
    (flagApply s args).1.cfg.LoggerPort = s.cfg.LoggerPort := by
  induction args generalizing s with
  | nil => rfl
  | cons a rest ih =>
    simp only [flagApply]
    cases h : lookupFlag s.registry a.1 with
    | some fld =>
      have := ih ({ s with cfg := fld.set s.cfg a.2 })
      simpa [set_logger] using this
    | none => rfl

theorem flagApply_spec (s : PState) (args : List (String × String))
    (hreg : s.registry = standardFlags) (ha : argsOK args) :
    (flagApply s args).2 = none ∧
    ∀ f : CField, f.get (flagApply s args).1.cfg =
      (envMapLookup args (nameOf f)).getD (f.get s.cfg) := by
  induction args generalizing s with
  | nil => simp [flagApply, envMapLookup]
  | cons a rest ih =>
    have ha1 : (lookupFlag standardFlags a.1).isSome := ha a (by simp)
    have harest : argsOK rest := fun x hx => ha x (by simp [hx])
    obtain ⟨f0, hf0⟩ : ∃ f0, lookupFlag standardFlags a.1 = some f0 := by
      cases hx : lookupFlag standardFlags a.1
      · rw [hx] at ha1
        exact absurd ha1 (by simp)
      · exact ⟨_, rfl⟩
    have hname : a.1 = nameOf f0 := lookup_standard_name _ _ hf0
    have hstep : flagApply s (a :: rest) =
        flagApply { s with cfg := f0.set s.cfg a.2 } rest := by
      simp only [flagApply, hreg, hf0]
    have ih1 := ih { s with cfg := f0.set s.cfg a.2 } (by simpa using hreg) harest
    refine ⟨by rw [hstep]; exact ih1.1, ?_⟩
    intro f
    rw [hstep, ih1.2 f]
    by_cases heq : f = f0
    · subst heq
      cases hrest : envMapLookup rest (nameOf f) with
      | some w => simp [envMapLookup, hrest]
      | none =>
        simp only [envMapLookup, hrest, hname, if_pos rfl]
        simp [get_set]
    · have hne : nameOf f ≠ a.1 := by
        rw [hname]
        intro hc
        exact heq (nameOf_inj _ _ hc)
      have hcond : ¬(a.1 = nameOf f) := fun hc => hne hc.symm
      cases hrest : envMapLookup rest (nameOf f) with
      | some w => simp [envMapLookup, hrest]
      | none => simp [envMapLookup, hrest, hcond, get_set_ne _ _ heq]

/-! ### The master characterization of loadConfigRest and loadConfig -/

theorem loadConfigRest_spec (s : PState) (args : List (String × String))
    (hg : goodState s) (ha : argsOK args) :
    (loadConfigRest args s).1.env = s.env ∧
    (loadConfigRest args s).1.registry = standardFlags ∧
    (loadConfigRest args s).1.parseCount = s.parseCount + 1 ∧
    (loadConfigRest args s).1.cfg.MetricsPort = s.cfg.MetricsPort ∧
    (loadConfigRest args s).1.cfg.TracerPort = s.cfg.TracerPort ∧
    (loadConfigRest args s).1.cfg.LoggerPort = s.cfg.LoggerPort ∧
    (∀ f : CField, f.get (loadConfigRest args s).1.cfg =
      resolveOne s.registry.isEmpty s.env args (nameOf f) (f.get s.cfg)) ∧
    (loadConfigRest args s).2 =
      (if (loadConfigRest args s).1.cfg.validate = [] then none
       else some (LoadError.invalid (loadConfigRest args s).1.cfg.validate)) := by
  have hreg : ({ registerAll s with parseCount := (registerAll s).parseCount + 1
      : PState }).registry = standardFlags := by
    simpa using registerAll_registry s hg
  have hfa := flagApply_spec
    { registerAll s with parseCount := (registerAll s).parseCount + 1 } args hreg ha
  have hpair : flagParse args (registerAll s) =
      ((flagParse args (registerAll s)).1, none) := by
    have : flagParse args (registerAll s) =
        ((flagParse args (registerAll s)).1, (flagParse args (registerAll s)).2) := rfl
    rw [this, flagParse, hfa.1]
  have hrest : loadConfigRest args s =
      (if (flagParse args (registerAll s)).1.cfg.validate = []
       then ((flagParse args (registerAll s)).1, none)
       else ((flagParse args (registerAll s)).1,
             some (LoadError.invalid (flagParse args (registerAll s)).1.cfg.validate))) := by
    rw [loadConfigRest, hpair]
  have h1 : (loadConfigRest args s).1 = (flagParse args (registerAll s)).1 := by
    rw [hrest]
    split <;> rfl
  have henv : (flagParse args (registerAll s)).1.env = s.env := by
    rw [flagParse, flagApply_env]
    simpa using registerAll_env s
  have hregy : (flagParse args (registerAll s)).1.registry = standardFlags := by
    rw [flagParse, flagApply_registry]
    simpa using registerAll_registry s hg
  have hcount : (flagParse args (registerAll s)).1.parseCount = s.parseCount + 1 := by
    rw [flagParse, flagApply_parseCount]
    simpa using registerAll_parseCount s
  have hmet : (flagParse args (registerAll s)).1.cfg.MetricsPort = s.cfg.MetricsPort := by
    rw [flagParse, flagApply_metrics]
    simpa using registerAll_metrics s
  have htra : (flagParse args (registerAll s)).1.cfg.TracerPort = s.cfg.TracerPort := by
    rw [flagParse, flagApply_tracer]
    simpa using registerAll_tracer s
  have hlog : (flagParse args (registerAll s)).1.cfg.LoggerPort = s.cfg.LoggerPort := by
    rw [flagParse, flagApply_logger]
    simpa using registerAll_logger s
  have hget : ∀ f : CField, f.get (flagParse args (registerAll s)).1.cfg =
      resolveOne s.registry.isEmpty s.env args (nameOf f) (f.get s.cfg) := by
    intro f
    have hthis := hfa.2 f
    have h2 : (envMapLookup args (nameOf f)).getD
        (f.get ({ registerAll s with
          parseCount := (registerAll s).parseCount + 1 : PState }).cfg) =
        resolveOne s.registry.isEmpty s.env args (nameOf f) (f.get s.cfg) := by
      have hra : f.get ({ registerAll s with
          parseCount := (registerAll s).parseCount + 1 : PState }).cfg
          = f.get (registerAll s).cfg := rfl
      rw [hra, registerAll_get s hg f, resolveOne]
      cases hml : envMapLookup args (nameOf f) with
      | some v => rfl
      | none => simp only [Option.getD_none]
    exact hthis.trans h2
  have herr : (loadConfigRest args s).2 =
      (if (loadConfigRest args s).1.cfg.validate = [] then none
       else some (LoadError.invalid (loadConfigRest args s).1.cfg.validate)) := by
    rw [hrest]
    split <;> first | simp_all | rfl
  refine ⟨by rw [h1]; exact henv, by rw [h1]; exact hregy, by rw [h1]; exact hcount,
    by rw [h1]; exact hmet, by rw [h1]; exact htra, by rw [h1]; exact hlog,
    by intro f; rw [h1]; exact hget f, herr⟩

theorem loadConfig_eq_rest (fs : FS) (args : List (String × String)) (path : String)
    (s : PState) (hok : ∀ m, fs (resolvePath path) ≠ some (Except.error m)) :
    loadConfig fs args path s = loadConfigRest args (mergedState fs path s) := by
  rw [loadConfig, mergedState]
  cases hfs : fs (resolvePath path) with
  | none => rfl
  | some r =>
    cases r with
    | error m => exact absurd hfs (hok m)
    | ok ps => rfl

theorem mergedState_registry (fs : FS) (path : String) (s : PState) :
    (mergedState fs path s).registry = s.registry := by
  rw [mergedState]
  cases hfs : fs (resolvePath path) with
  | none => rfl
  | some r => cases r <;> rfl

theorem mergedState_cfg (fs : FS) (path : String) (s : PState) :
    (mergedState fs path s).cfg = s.cfg := by
  rw [mergedState]
  cases hfs : fs (resolvePath path) with
  | none => rfl
  | some r => cases r <;> rfl

theorem mergedState_parseCount (fs : FS) (path : String) (s : PState) :
    (mergedState fs path s).parseCount = s.parseCount := by
  rw [mergedState]
  cases hfs : fs (resolvePath path) with
  | none => rfl
  | some r => cases r <;> rfl

theorem mergedState_good (fs : FS) (path : String) (s : PState) (hg : goodState s) :
    goodState (mergedState fs path s) := by
  rw [goodState, mergedState_registry]
  exact hg

theorem mergedState_env_some (fs : FS) (path : String) (s : PState)
    (k : String) (v : String) (h : s.env k = some v) :
    (mergedState fs path s).env k = some v := by
  rw [mergedState]
  cases hfs : fs (resolvePath path) with
  | none => exact h
  | some r =>
    cases r with
    | error m => exact h
    | ok ps => simp only [dotenvMerge, h]

theorem loadConfigRest_fst (args : List (String × String)) (s : PState) :
    (loadConfigRest args s).1 = (flagParse args (registerAll s)).1 := by
  rcases hp : flagParse args (registerAll s) with ⟨s1, o⟩
  rw [loadConfigRest, hp]
  cases o with
  | none =>
    dsimp only
    split <;> rfl
  | some n => rfl

theorem loadConfigRest_env (args : List (String × String)) (s : PState) :
    (loadConfigRest args s).1.env = s.env := by
  rw [loadConfigRest_fst, flagParse, flagApply_env]
  simpa using registerAll_env s

theorem loadConfigRest_metrics (args : List (String × String)) (s : PState) :
    (loadConfigRest args s).1.cfg.MetricsPort = s.cfg.MetricsPort := by
  rw [loadConfigRest_fst, flagParse, flagApply_metrics]
  simpa using registerAll_metrics s

theorem loadConfigRest_tracer (args : List (String × String)) (s : PState) :
    (loadConfigRest args s).1.cfg.TracerPort = s.cfg.TracerPort := by
  rw [loadConfigRest_fst, flagParse, flagApply_tracer]
  simpa using registerAll_tracer s

theorem loadConfigRest_logger (args : List (String × String)) (s : PState) :
    (loadConfigRest args s).1.cfg.LoggerPort = s.cfg.LoggerPort := by
  rw [loadConfigRest_fst, flagParse, flagApply_logger]
  simpa using registerAll_logger s

/-! ### Validation characterization -/

theorem validate_empty_iff (c : Config) :
    c.validate = [] ↔
      (c.CollectorGRPCURL ≠ "" ∧ c.CollectorHTTPURL ≠ "" ∧
       c.ServiceName ≠ "" ∧ c.PprofURL ≠ "") := by
  rw [Config.validate]
  split_ifs <;> simp_all

theorem validate_mem (c : Config) :
    (msgGrpc ∈ c.validate ↔ c.CollectorGRPCURL = "") ∧
    (msgHttp ∈ c.validate ↔ c.CollectorHTTPURL = "") ∧
    (msgSvc ∈ c.validate ↔ c.ServiceName = "") ∧
    (msgPprof ∈ c.validate ↔ c.PprofURL = "") := by
  have d1 : msgGrpc ≠ msgHttp := by decide
  have d2 : msgGrpc ≠ msgSvc := by decide
  have d3 : msgGrpc ≠ msgPprof := by decide
  have d4 : msgHttp ≠ msgSvc := by decide
  have d5 : msgHttp ≠ msgPprof := by decide
  have d6 : msgSvc ≠ msgPprof := by decide
  have e1 : msgHttp ≠ msgGrpc := d1.symm
  have e2 : msgSvc ≠ msgGrpc := d2.symm
  have e3 : msgPprof ≠ msgGrpc := d3.symm
  have e4 : msgSvc ≠ msgHttp := d4.symm
  have e5 : msgPprof ≠ msgHttp := d5.symm
  have e6 : msgPprof ≠ msgSvc := d6.symm
  rw [Config.validate]
  split_ifs <;> simp_all

theorem validate_length (c : Config) :
    c.validate.length =
      (if c.CollectorGRPCURL = "" then 1 else 0) +
      (if c.CollectorHTTPURL = "" then 1 else 0) +
      (if c.ServiceName = "" then 1 else 0) +
      (if c.PprofURL = "" then 1 else 0) := by
  rw [Config.validate]
  split_ifs <;> simp

attribute [ext] Config PState

/-! ## Claim theorems: configuration resolver -/

/-- Claim C1: with a well-formed or absent dotenv file and only registered
flags passed, loadConfig returns an error if and only if at least one of the
four required fields is empty after merging, and that error is the join of
the per-field validation errors: the joined list contains each field's
message exactly when that field is empty, with exactly one entry per empty
field (all missing fields reported together, not short-circuited). -/
theorem C1_error_iff_missing (fs : FS) (args : List (String × String)) (path : String)
    (s : PState) (hg : goodState s) (ha : argsOK args)
    (hok : ∀ m, fs (resolvePath path) ≠ some (Except.error m)) :
    ((loadConfig fs args path s).2 = none ↔
      ((loadConfig fs args path s).1.cfg.CollectorGRPCURL ≠ "" ∧
       (loadConfig fs args path s).1.cfg.CollectorHTTPURL ≠ "" ∧
       (loadConfig fs args path s).1.cfg.ServiceName ≠ "" ∧
       (loadConfig fs args path s).1.cfg.PprofURL ≠ "")) ∧
    ((loadConfig fs args path s).2 = none ∨
      (loadConfig fs args path s).2 =
        some (LoadError.invalid (loadConfig fs args path s).1.cfg.validate)) ∧
    (∀ c : Config,
      (msgGrpc ∈ c.validate ↔ c.CollectorGRPCURL = "") ∧
      (msgHttp ∈ c.validate ↔ c.CollectorHTTPURL = "") ∧
      (msgSvc ∈ c.validate ↔ c.ServiceName = "") ∧
      (msgPprof ∈ c.validate ↔ c.PprofURL = "") ∧
      c.validate.length =
        (if c.CollectorGRPCURL = "" then 1 else 0) +
        (if c.CollectorHTTPURL = "" then 1 else 0) +
        (if c.ServiceName = "" then 1 else 0) +
        (if c.PprofURL = "" then 1 else 0)) := by
  have heq := loadConfig_eq_rest fs args path s hok
  have hsp := loadConfigRest_spec (mergedState fs path s) args
    (mergedState_good fs path s hg) ha
  have herr := hsp.2.2.2.2.2.2.2
  rw [heq]
  refine ⟨?_, ?_, ?_⟩
  · rw [herr, ← validate_empty_iff]
    by_cases hv : (loadConfigRest args (mergedState fs path s)).1.cfg.validate = [] <;>
      simp [hv]
  · rw [herr]
    by_cases hv : (loadConfigRest args (mergedState fs path s)).1.cfg.validate = [] <;>
      simp [hv]
  · intro c
    obtain ⟨m1, m2, m3, m4⟩ := validate_mem c
    exact ⟨m1, m2, m3, m4, validate_length c⟩

/-- Claim C2: for each registered configuration key, a flag explicitly passed
on the command line yields the final field value (its last occurrence),
overriding both the environment and the file; with no flag passed and a
pre-existing non-empty environment entry for the key, the environment value
is the one resolved, whatever the dotenv file contains for that key (file
pairs never override pre-existing environment entries). -/
theorem C2_precedence (fs : FS) (args : List (String × String)) (path : String)
    (s : PState) (n : String) (f : CField)
    (hg : goodState s) (ha : argsOK args)
    (hok : ∀ m, fs (resolvePath path) ≠ some (Except.error m))
    (hn : lookupFlag standardFlags n = some f) :
    (∀ v, envMapLookup args n = some v →
      f.get (loadConfig fs args path s).1.cfg = v) ∧
    (envMapLookup args n = none → ∀ ev, s.env n = some ev → ev ≠ "" →
      f.get (loadConfig fs args path s).1.cfg = ev) := by
  have hname : n = nameOf f := lookup_standard_name n f hn
  subst hname
  have heq := loadConfig_eq_rest fs args path s hok
  have hsp := loadConfigRest_spec (mergedState fs path s) args
    (mergedState_good fs path s hg) ha
  have hf := hsp.2.2.2.2.2.2.1 f
  rw [heq]
  constructor
  · intro v hv
    rw [hf]
    simp only [resolveOne, hv]
  · intro hnone ev hev hne
    have hm : (mergedState fs path s).env (nameOf f) = some ev :=
      mergedState_env_some fs path s (nameOf f) ev hev
    have hgv : getenv (mergedState fs path s).env (nameOf f) = ev := by
      simp [getenv, hm]
    rw [hf]
    simp only [resolveOne, hnone, hgv, if_neg hne]

/-- Claim C6: when the dotenv file at the resolved path exists but is
malformed, loadConfig returns the wrapped parse error and aborts before any
flag registration or command-line parsing: the returned state is exactly the
input state, so the flag registry, the parse count, the environment and
every Config field are untouched by the call. -/
theorem C6_malformed_dotenv (fs : FS) (args : List (String × String)) (path : String)
    (s : PState) (m : String) (h : fs (resolvePath path) = some (Except.error m)) :
    loadConfig fs args path s =
      (s, some (LoadError.dotenvFail ("loading .env file: " ++ m))) := by
  rw [loadConfig, h]

/-- Claim C10: loadConfig leaves every environment variable unchanged unless
a parsed dotenv file exists at the resolved path (the given path, or ".env"
for the empty path) — in particular whenever no file exists there — and in
all cases the Config fields other than the four registered ones (MetricsPort,
TracerPort, LoggerPort) are never written. -/
theorem C10_frame (fs : FS) (args : List (String × String)) (path : String) (s : PState) :
    ((∀ ps, fs (resolvePath path) ≠ some (Except.ok ps)) →
      ∀ k, (loadConfig fs args path s).1.env k = s.env k) ∧
    (loadConfig fs args path s).1.cfg.MetricsPort = s.cfg.MetricsPort ∧
    (loadConfig fs args path s).1.cfg.TracerPort = s.cfg.TracerPort ∧
    (loadConfig fs args path s).1.cfg.LoggerPort = s.cfg.LoggerPort := by
  cases hfs : fs (resolvePath path) with
  | none =>
    have hl : loadConfig fs args path s = loadConfigRest args s := by
      rw [loadConfig, hfs]
    rw [hl]
    exact ⟨fun _ k => by rw [loadConfigRest_env], loadConfigRest_metrics args s,
      loadConfigRest_tracer args s, loadConfigRest_logger args s⟩
  | some r =>
    cases r with
    | error m =>
      have hl : loadConfig fs args path s =
          (s, some (LoadError.dotenvFail ("loading .env file: " ++ m))) := by
        rw [loadConfig, hfs]
      rw [hl]
      exact ⟨fun _ k => rfl, rfl, rfl, rfl⟩
    | ok ps =>
      have hl : loadConfig fs args path s =
          loadConfigRest args { s with env := dotenvMerge s.env ps } := by
        rw [loadConfig, hfs]
      rw [hl]
      refine ⟨fun hno k => absurd rfl (hno ps), ?_, ?_, ?_⟩
      · rw [loadConfigRest_metrics]
      · rw [loadConfigRest_tracer]
      · rw [loadConfigRest_logger]

theorem dotenvMerge_idem (e : Env) (ps : List (String × String)) :
    dotenvMerge (dotenvMerge e ps) ps = dotenvMerge e ps := by
  funext k
  simp only [dotenvMerge]
  cases he : e k with
  | some v => rfl
  | none => cases hl : envMapLookup ps k <;> rfl

/-- Claim C3 (counterexample): the command-line arguments are not parsed
exactly once per process: flag.Parse runs on every loadConfig call, so after
a second call in the same process the parse count is 2, not 1, even though
the first call succeeded (the configuration was already valid). -/
theorem C3_counterexample :
    (loadConfig fsNone [] "" c3State).1.parseCount = 2 ∧
    ¬ (loadConfig fsNone [] "" c3State).1.parseCount = 1 ∧
    (loadConfig fsNone [] "" initState).2 = none := by
  refine ⟨?_, ?_, ?_⟩ <;> decide

/-- Claim C3 (amended): calling loadConfig a second time within the same
process does not re-register any command-line flag and returns no error when
the configuration was already valid; however the argument vector is
re-parsed by the second call (parsing runs once per call, not once per
process): the second call returns the same state except that the parse count
is incremented, with the identical (valid) configuration. -/
theorem C3_idempotent (fs : FS) (args : List (String × String)) (path : String)
    (s s1 : PState) (hg : goodState s) (ha : argsOK args)
    (hok : ∀ m, fs (resolvePath path) ≠ some (Except.error m))
    (h1 : loadConfig fs args path s = (s1, none)) :
    loadConfig fs args path s1 = ({ s1 with parseCount := s1.parseCount + 1 }, none) := by
  have heq := loadConfig_eq_rest fs args path s hok
  rw [heq] at h1
  have hs1 : (loadConfigRest args (mergedState fs path s)).1 = s1 := by rw [h1]
  have h2none : (loadConfigRest args (mergedState fs path s)).2 = none := by rw [h1]
  have hsp := loadConfigRest_spec (mergedState fs path s) args
    (mergedState_good fs path s hg) ha
  have henv1 : s1.env = (mergedState fs path s).env := by
    rw [← hs1]
    exact hsp.1
  have hreg1 : s1.registry = standardFlags := by
    rw [← hs1]
    exact hsp.2.1
  have hval : s1.cfg.validate = [] := by
    have herr := hsp.2.2.2.2.2.2.2
    rw [h2none, hs1] at herr
    by_contra hv
    rw [if_neg hv] at herr
    exact Option.noConfusion herr
  have hms : mergedState fs path s1 = s1 := by
    cases hfs : fs (resolvePath path) with
    | none => rw [mergedState, hfs]
    | some r =>
      cases r with
      | error m => rw [mergedState, hfs]
      | ok ps =>
        have henvt : s1.env = dotenvMerge s.env ps := by
          rw [henv1, mergedState, hfs]
        have hmm : mergedState fs path s1 = { s1 with env := dotenvMerge s1.env ps } := by
          rw [mergedState, hfs]
        rw [hmm]
        refine PState.ext ?_ rfl rfl rfl
        dsimp only
        rw [henvt, dotenvMerge_idem]
  have heq2 := loadConfig_eq_rest fs args path s1 hok
  rw [heq2, hms]
  have hgs1 : goodState s1 := Or.inr hreg1
  have hsp2 := loadConfigRest_spec s1 args hgs1 ha
  have hfield : ∀ f : CField, f.get (loadConfigRest args s1).1.cfg = f.get s1.cfg := by
    intro f
    have hg1 := hsp2.2.2.2.2.2.2.1 f
    have hf1 : f.get s1.cfg = resolveOne (mergedState fs path s).registry.isEmpty
        (mergedState fs path s).env args (nameOf f)
        (f.get (mergedState fs path s).cfg) := by
      rw [← hs1]
      exact hsp.2.2.2.2.2.2.1 f
    have hne : s1.registry.isEmpty = false := by
      rw [hreg1]
      rfl
    rw [hg1, resolveOne, hne]
    cases hml : envMapLookup args (nameOf f) with
    | some v =>
      rw [resolveOne, hml] at hf1
      exact hf1.symm
    | none =>
      rw [resolveOne, hml] at hf1
      dsimp only
      by_cases hd : getenv s1.env (nameOf f) = ""
      · simp [hd]
      · rw [if_neg hd]
        rw [henv1] at hd
        rw [hf1, if_neg hd, henv1]
  have hcfg : (loadConfigRest args s1).1.cfg = s1.cfg :=
    Config.ext (hfield CField.grpc) (hfield CField.http) (hfield CField.svc)
      (hfield CField.pprof) (hsp2.2.2.2.1) (hsp2.2.2.2.2.1) (hsp2.2.2.2.2.2.1)
  have hfst : (loadConfigRest args s1).1 = { s1 with parseCount := s1.parseCount + 1 } := by
    refine PState.ext ?_ ?_ ?_ ?_
    · exact hsp2.1
    · rw [hsp2.2.1, hreg1]
    · exact hcfg
    · exact hsp2.2.2.1
  have hsnd : (loadConfigRest args s1).2 = none := by
    have herr2 := hsp2.2.2.2.2.2.2.2
    rw [hcfg, hval] at herr2
    simpa using herr2
  calc loadConfigRest args s1
      = ((loadConfigRest args s1).1, (loadConfigRest args s1).2) := rfl
    _ = ({ s1 with parseCount := s1.parseCount + 1 }, none) := by rw [hfst, hsnd]

/-! ## Lifecycle lemmas and claim theorems -/

theorem reachable_inv (ok : String → Bool) (s : SysState) (h : Reachable ok s) :
    (s.handlerDone = true → s.cancelled = true) ∧
    s.teardownRuns = (if s.handlerDone then 1 else 0) ∧
    s.tornDown = (if s.handlerDone then teardownSeq else []) := by
  induction h with
  | init => exact ⟨fun h => by simp [initSys] at h, rfl, rfl⟩
  | step hr hs ih =>
    cases hs with
    | externalCancel => exact ⟨fun _ => rfl, ih.2.1, ih.2.2⟩
    | interruptArrive => exact ih
    | handlerInterrupt h1 h2 => exact ⟨fun _ => rfl, ih.2.1, ih.2.2⟩
    | handlerCancel h1 h2 =>
      refine ⟨fun _ => h2, ?_, ?_⟩
      · have := ih.2.1
        rw [h1] at this
        simp only [Bool.false_eq_true, if_false] at this
        simp [this]
      · have := ih.2.2
        rw [h1] at this
        simp only [Bool.false_eq_true, if_false] at this
        simp [this]
    | emitterSetupFail n h1 h2 => exact ih
    | emitterRoll keys r h1 h2 h3 h4 h5 => exact ih
    | emitterCancel h1 h2 => exact ih
    | pprofStop h1 h2 => exact ih

/-- Claim C4: in every reachable state of the lifecycle system the teardown
sequence has run at most once; whenever the termination listener has
returned — however shutdown was triggered: external context cancellation, an
OS interrupt (whose handling fires cancel and is treated identically), or
both racing — teardown has run exactly once with the cancellation flag set,
and while the listener has not returned teardown has never run. -/
theorem C4_teardown_once (ok : String → Bool) (s : SysState) (h : Reachable ok s) :
    s.teardownRuns ≤ 1 ∧
    (s.handlerDone = true → s.teardownRuns = 1 ∧ s.cancelled = true) ∧
    (s.handlerDone = false → s.teardownRuns = 0) := by
  obtain ⟨i1, i2, i3⟩ := reachable_inv ok s h
  refine ⟨?_, fun hd => ⟨?_, i1 hd⟩, fun hd => ?_⟩
  · rw [i2]
    split <;> omega
  · rw [i2, hd]
    rfl
  · rw [i2, hd]
    rfl

/-- Claim C5: in every reachable state, teardown callbacks have fired only
after the cancellation signal (a non-empty callback log implies the flag is
set), and when the termination listener has returned the invoked callbacks
are exactly the fixed sequence — pprof server close, then log provider
shutdown, then trace provider shutdown, then metrics provider shutdown —
each exactly once, in that order; before the listener returns none has run. -/
theorem C5_teardown_order (ok : String → Bool) (s : SysState) (h : Reachable ok s) :
    (s.tornDown ≠ [] → s.cancelled = true ∧ s.handlerDone = true) ∧
    (s.handlerDone = true → s.tornDown = teardownSeq) ∧
    (s.handlerDone = false → s.tornDown = []) := by
  obtain ⟨i1, i2, i3⟩ := reachable_inv ok s h
  refine ⟨fun hne => ?_, fun hd => ?_, fun hd => ?_⟩
  · cases hd : s.handlerDone with
    | false =>
      rw [i3, hd] at hne
      simp at hne
    | true => exact ⟨i1 hd, rfl⟩
  · rw [i3, hd]
    rfl
  · rw [i3, hd]
    rfl

theorem setupRollLoop_fail (ok : String → Bool) (fuel : Nat) :
    ∀ (idx : Int) (acc : List Int),
    (∃ j : Int, idx ≤ j ∧ j < idx + fuel ∧ ok (rollCounterName j) = false) →
    ∃ n, setupRollLoop ok fuel idx acc = SetupResult.earlyReturn n := by
  induction fuel with
  | zero =>
    rintro idx acc ⟨j, h1, h2, h3⟩
    omega
  | succ fuel ih =>
    rintro idx acc ⟨j, h1, h2, h3⟩
    rw [setupRollLoop]
    by_cases hi : ok (rollCounterName idx) = true
    · rw [if_pos hi]
      rcases eq_or_lt_of_le h1 with heq | hlt
      · rw [← heq] at h3
        rw [h3] at hi
        exact Bool.noConfusion hi
      · exact ih (idx + 1) (acc ++ [idx]) ⟨j, by omega, by omega, h3⟩
    · rw [if_neg hi]
      exact ⟨_, rfl⟩

theorem setupRollLoop_enter (ok : String → Bool) (fuel : Nat) :
    ∀ (idx : Int) (acc keys : List Int),
    setupRollLoop ok fuel idx acc = SetupResult.enterLoop keys →
    keys = acc ++ intsFrom idx fuel := by
  induction fuel with
  | zero =>
    intro idx acc keys h
    rw [setupRollLoop] at h
    injection h with h
    simp [intsFrom, ← h]
  | succ fuel ih =>
    intro idx acc keys h
    rw [setupRollLoop] at h
    by_cases hi : ok (rollCounterName idx) = true
    · rw [if_pos hi] at h
      rw [ih (idx + 1) (acc ++ [idx]) keys h, intsFrom]
      simp
    · rw [if_neg hi] at h
      exact SetupResult.noConfusion h

/-- Claim C8: if constructing the dice-rolls counter or any per-value roll
counter (indices 0 through 10) fails, the setup phase of generateData
returns early with an error logged for that counter, the roll loop is never
entered (no reachable state records any roll), and the emitting task's
return — by setup failure or otherwise — changes nothing outside the
emitting task, leaving the termination listener, the teardown state and the
diagnostic server untouched. -/
theorem C8_setup_failure (ok : String → Bool)
    (hfail : ok "dice-rolls" = false ∨
      ∃ i : Int, 0 ≤ i ∧ i < 11 ∧ ok (rollCounterName i) = false) :
    (∃ n, generateDataSetup ok = SetupResult.earlyReturn n) ∧
    (∀ s, Reachable ok s → s.rolls = []) ∧
    (∀ s t, Step ok s t → t.emitterDone ≠ s.emitterDone →
      t.cancelled = s.cancelled ∧ t.pendingInterrupts = s.pendingInterrupts ∧
      t.handlerDone = s.handlerDone ∧ t.teardownRuns = s.teardownRuns ∧
      t.tornDown = s.tornDown ∧ t.pprofDone = s.pprofDone) := by
  have hearly : ∃ n, generateDataSetup ok = SetupResult.earlyReturn n := by
    rcases hfail with hd | ⟨i, hi0, hi1, hif⟩
    · refine ⟨"dice-rolls", ?_⟩
      rw [generateDataSetup, if_neg ?_]
      rw [hd]
      exact Bool.noConfusion
    · rw [generateDataSetup]
      by_cases hdr : ok "dice-rolls" = true
      · rw [if_pos hdr]
        exact setupRollLoop_fail ok 11 0 [] ⟨i, hi0, by omega, hif⟩
      · rw [if_neg hdr]
        exact ⟨_, rfl⟩
  have hnoloop : ∀ keys, generateDataSetup ok ≠ SetupResult.enterLoop keys := by
    obtain ⟨n, hn⟩ := hearly
    intro keys hk
    rw [hn] at hk
    exact SetupResult.noConfusion hk
  refine ⟨hearly, ?_, ?_⟩
  · intro s hs
    induction hs with
    | init => rfl
    | step hr hstep ih =>
      cases hstep with
      | externalCancel => exact ih
      | interruptArrive => exact ih
      | handlerInterrupt h1 h2 => exact ih
      | handlerCancel h1 h2 => exact ih
      | emitterSetupFail n h1 h2 => exact ih
      | emitterRoll keys r h1 h2 h3 h4 h5 => exact absurd h3 (hnoloop keys)
      | emitterCancel h1 h2 => exact ih
      | pprofStop h1 h2 => exact ih
  · intro s t hst hne
    cases hst with
    | externalCancel => exact absurd rfl hne
    | interruptArrive => exact absurd rfl hne
    | handlerInterrupt h1 h2 => exact absurd rfl hne
    | handlerCancel h1 h2 => exact absurd rfl hne
    | emitterSetupFail n h1 h2 => exact ⟨rfl, rfl, rfl, rfl, rfl, rfl⟩
    | emitterRoll keys r h1 h2 h3 h4 h5 => exact absurd rfl hne
    | emitterCancel h1 h2 => exact ⟨rfl, rfl, rfl, rfl, rfl, rfl⟩
    | pprofStop h1 h2 => exact absurd rfl hne

/-- Claim C9: every roll recorded by the emitting loop lies in [0, 9] (in
every reachable state each roll r satisfies 0 ≤ r < 10), while the roll loop
is only entered with per-value counters registered exactly for the keys 0
through 10; consequently every generated roll finds its registered counter
in the rollFreq map and the subsequent Add call never hits a missing entry. -/
theorem C9_rolls_covered (ok : String → Bool) :
    (∀ s, Reachable ok s → ∀ r ∈ s.rolls, 0 ≤ r ∧ r < 10) ∧
    (∀ keys, generateDataSetup ok = SetupResult.enterLoop keys →
      keys = [0, 1, 2, 3, 4, 5, 6, 7, 8, 9, 10] ∧
      ∀ r : Int, 0 ≤ r → r < 10 → r ∈ keys) := by
  constructor
  · intro s hs
    induction hs with
    | init => intro r hr; simp [initSys] at hr
    | step hr hstep ih =>
      cases hstep with
      | externalCancel => exact ih
      | interruptArrive => exact ih
      | handlerInterrupt h1 h2 => exact ih
      | handlerCancel h1 h2 => exact ih
      | emitterSetupFail n h1 h2 => exact ih
      | emitterRoll keys r h1 h2 h3 h4 h5 =>
        intro x hx
        simp only [List.mem_append, List.mem_singleton] at hx
        rcases hx with hx | hx
        · exact ih x hx
        · subst hx
          exact ⟨h4, h5⟩
      | emitterCancel h1 h2 => exact ih
      | pprofStop h1 h2 => exact ih
  · intro keys hk
    rw [generateDataSetup] at hk
    by_cases hdr : ok "dice-rolls" = true
    · rw [if_pos hdr] at hk
      have := setupRollLoop_enter ok 11 0 [] keys hk
      have hint : ([] : List Int) ++ intsFrom 0 11 =
          [0, 1, 2, 3, 4, 5, 6, 7, 8, 9, 10] := by decide
      rw [hint] at this
      refine ⟨this, fun r h0 h1 => ?_⟩
      rw [this]
      have : r = 0 ∨ r = 1 ∨ r = 2 ∨ r = 3 ∨ r = 4 ∨ r = 5 ∨ r = 6 ∨ r = 7 ∨
          r = 8 ∨ r = 9 := by omega
      rcases this with rfl | rfl | rfl | rfl | rfl | rfl | rfl | rfl | rfl | rfl <;> decide
    · rw [if_neg hdr] at hk
      exact SetupResult.noConfusion hk

/-- Claim C7 (counterexample): the sleep delay of rollDice is not
proportional to the roll's value: no constant of proportionality fits all
rolls the emitting task generates, because a roll of 0 sleeps one second
while every proportional delay vanishes at roll 0. -/
theorem C7_counterexample :
    ¬ ∃ k : Int, ∀ r : Int, 0 ≤ r → r < 10 → sleepSeconds r = k * r := by
  rintro ⟨k, h⟩
  have h0 := h 0 le_rfl (by norm_num)
  simp [sleepSeconds] at h0

/-- Claim C7 (amended): for every roll the emitting task generates (0
through 9), the delay rollDice sleeps is the deterministic function
max(1, roll/2) seconds of the pseudo-random outcome — non-decreasing in the
roll's value, though not proportional to it. -/
theorem C7_delay (r : Int) (h0 : 0 ≤ r) (h1 : r < 10) :
    sleepSeconds r = max 1 (r / 2) := by
  have : r = 0 ∨ r = 1 ∨ r = 2 ∨ r = 3 ∨ r = 4 ∨ r = 5 ∨ r = 6 ∨ r = 7 ∨
      r = 8 ∨ r = 9 := by omega
  rcases this with rfl | rfl | rfl | rfl | rfl | rfl | rfl | rfl | rfl | rfl <;> decide

/-! ## Witnesses at concrete inputs -/

/-- Witness for C1: with an empty environment, no file and no flags the
hypotheses hold and the characterization applies. -/
theorem C1_witness :
    goodState initState0 ∧ argsOK [] ∧
    (((loadConfig fsNone [] "" initState0).2 = none ↔
      ((loadConfig fsNone [] "" initState0).1.cfg.CollectorGRPCURL ≠ "" ∧
       (loadConfig fsNone [] "" initState0).1.cfg.CollectorHTTPURL ≠ "" ∧
       (loadConfig fsNone [] "" initState0).1.cfg.ServiceName ≠ "" ∧
       (loadConfig fsNone [] "" initState0).1.cfg.PprofURL ≠ "")) ∧
     ((loadConfig fsNone [] "" initState0).2 = none ∨
      (loadConfig fsNone [] "" initState0).2 =
        some (LoadError.invalid (loadConfig fsNone [] "" initState0).1.cfg.validate)) ∧
     (∀ c : Config,
       (msgGrpc ∈ c.validate ↔ c.CollectorGRPCURL = "") ∧
       (msgHttp ∈ c.validate ↔ c.CollectorHTTPURL = "") ∧
       (msgSvc ∈ c.validate ↔ c.ServiceName = "") ∧
       (msgPprof ∈ c.validate ↔ c.PprofURL = "") ∧
       c.validate.length =
         (if c.CollectorGRPCURL = "" then 1 else 0) +
         (if c.CollectorHTTPURL = "" then 1 else 0) +
         (if c.ServiceName = "" then 1 else 0) +
         (if c.PprofURL = "" then 1 else 0))) :=
  ⟨Or.inl rfl, by intro a ha; simp at ha,
    C1_error_iff_missing fsNone [] "" initState0 (Or.inl rfl)
      (by intro a ha; simp at ha) (fun m h => Option.noConfusion h)⟩

/-- Witness for C2: an explicitly passed servicename flag wins over both the
environment entry and the file entry for that key. -/
theorem C2_witness :
    goodState initState ∧ argsOK [("servicename", "flagval")] ∧
    lookupFlag standardFlags "servicename" = some CField.svc ∧
    ((∀ v, envMapLookup [("servicename", "flagval")] "servicename" = some v →
      CField.svc.get (loadConfig fsGood [("servicename", "flagval")] "" initState).1.cfg = v) ∧
     (envMapLookup [("servicename", "flagval")] "servicename" = none →
      ∀ ev, initState.env "servicename" = some ev → ev ≠ "" →
      CField.svc.get (loadConfig fsGood [("servicename", "flagval")] "" initState).1.cfg = ev)) := by
  have hargs : argsOK [("servicename", "flagval")] := by
    intro a ha
    obtain rfl := List.mem_singleton.mp ha
    decide
  refine ⟨Or.inl rfl, hargs, by decide, ?_⟩
  exact C2_precedence fsGood [("servicename", "flagval")] "" initState "servicename"
    CField.svc (Or.inl rfl) hargs (by intro m h; simp [fsGood, resolvePath] at h)
    (by decide)

/-- Witness for C3 (amended): a second resolver call on the valid
configuration returns the same state, error-free, with only the parse count
incremented. -/
theorem C3_witness :
    goodState initState ∧ argsOK [] ∧
    loadConfig fsNone [] "" initState = (c3State, none) ∧
    loadConfig fsNone [] "" c3State =
      ({ c3State with parseCount := c3State.parseCount + 1 }, none) := by
  have h1 : loadConfig fsNone [] "" initState = (c3State, none) := by
    have he : loadConfig fsNone [] "" initState =
        ((loadConfig fsNone [] "" initState).1, (loadConfig fsNone [] "" initState).2) := rfl
    rw [he, show (loadConfig fsNone [] "" initState).2 = none by decide]
    rfl
  exact ⟨Or.inl rfl, by intro a ha; simp at ha, h1,
    C3_idempotent fsNone [] "" initState c3State (Or.inl rfl)
      (by intro a ha; simp at ha) (fun m h => Option.noConfusion h) h1⟩

/-- Witness for C4: a shutdown driven by an OS interrupt — the interrupt
arrives, the listener fires cancel, observes cancellation, runs teardown and
returns — reaches a state where teardown ran exactly once. -/
theorem C4_witness :
    Reachable okAll sShutdown ∧ sShutdown.teardownRuns ≤ 1 ∧
    (sShutdown.handlerDone = true →
      sShutdown.teardownRuns = 1 ∧ sShutdown.cancelled = true) ∧
    (sShutdown.handlerDone = false → sShutdown.teardownRuns = 0) := by
  have hr : Reachable okAll sShutdown :=
    Reachable.step (Reachable.step (Reachable.step Reachable.init
      (Step.interruptArrive initSys))
      (Step.handlerInterrupt _ rfl (by decide)))
      (Step.handlerCancel _ rfl rfl)
  have h := C4_teardown_once okAll sShutdown hr
  exact ⟨hr, h.1, h.2.1, h.2.2⟩

/-- Witness for C5: a shutdown driven by external context cancellation
reaches a state whose teardown log is exactly the fixed callback sequence. -/
theorem C5_witness :
    Reachable okAll sShutdown ∧
    (sShutdown.tornDown ≠ [] →
      sShutdown.cancelled = true ∧ sShutdown.handlerDone = true) ∧
    (sShutdown.handlerDone = true → sShutdown.tornDown = teardownSeq) ∧
    (sShutdown.handlerDone = false → sShutdown.tornDown = []) := by
  have hr : Reachable okAll sShutdown :=
    Reachable.step (Reachable.step Reachable.init (Step.externalCancel initSys))
      (Step.handlerCancel _ rfl rfl)
  have h := C5_teardown_order okAll sShutdown hr
  exact ⟨hr, h.1, h.2.1, h.2.2⟩

/-- Witness for C6: a malformed dotenv file at the default path aborts the
resolver with the wrapped error and an untouched state. -/
theorem C6_witness :
    fsBad (resolvePath "") = some (Except.error "bad line") ∧
    loadConfig fsBad [] "" initState0 =
      (initState0, some (LoadError.dotenvFail ("loading .env file: " ++ "bad line"))) :=
  ⟨rfl, C6_malformed_dotenv fsBad [] "" initState0 "bad line" rfl⟩

/-- Witness for C7 (amended): a roll of 5 sleeps max(1, 5/2) = 2 seconds. -/
theorem C7_witness :
    (0 : Int) ≤ 5 ∧ (5 : Int) < 10 ∧ sleepSeconds 5 = max 1 (5 / 2) :=
  ⟨by decide, by decide, C7_delay 5 (by decide) (by decide)⟩

/-- Witness for C8: with the dice-rolls counter construction failing, the
emitting task returns early, no roll is ever recorded, and its return leaves
the other tasks' state untouched. -/
theorem C8_witness :
    okFailDice "dice-rolls" = false ∧
    (∃ n, generateDataSetup okFailDice = SetupResult.earlyReturn n) ∧
    (∀ s, Reachable okFailDice s → s.rolls = []) ∧
    (∀ s t, Step okFailDice s t → t.emitterDone ≠ s.emitterDone →
      t.cancelled = s.cancelled ∧ t.pendingInterrupts = s.pendingInterrupts ∧
      t.handlerDone = s.handlerDone ∧ t.teardownRuns = s.teardownRuns ∧
      t.tornDown = s.tornDown ∧ t.pprofDone = s.pprofDone) := by
  have h := C8_setup_failure okFailDice (Or.inl (by decide))
  exact ⟨by decide, h.1, h.2.1, h.2.2⟩

/-- Witness for C9: with every counter construction succeeding, the setup
phase registers exactly the keys 0 through 10 and the roll 7 finds its
counter. -/
theorem C9_witness :
    generateDataSetup okAll =
      SetupResult.enterLoop [0, 1, 2, 3, 4, 5, 6, 7, 8, 9, 10] ∧
    (7 : Int) ∈ ([0, 1, 2, 3, 4, 5, 6, 7, 8, 9, 10] : List Int) := by
  have hsetup : generateDataSetup okAll =
      SetupResult.enterLoop [0, 1, 2, 3, 4, 5, 6, 7, 8, 9, 10] := by decide
  exact ⟨hsetup, ((C9_rolls_covered okAll).2 _ hsetup).2 7 (by decide) (by decide)⟩

/-- Witness for C10: with no file at the resolved path, a resolver call
leaves the environment and the port fields untouched. -/
theorem C10_witness :
    (∀ ps, fsNone (resolvePath "") ≠ some (Except.ok ps)) ∧
    (loadConfig fsNone [] "" initState0).1.env "servicename" =
      initState0.env "servicename" ∧
    (loadConfig fsNone [] "" initState0).1.cfg.MetricsPort =
      initState0.cfg.MetricsPort ∧
    (loadConfig fsNone [] "" initState0).1.cfg.TracerPort =
      initState0.cfg.TracerPort ∧
    (loadConfig fsNone [] "" initState0).1.cfg.LoggerPort =
      initState0.cfg.LoggerPort := by
  have hno : ∀ ps, fsNone (resolvePath "") ≠ some (Except.ok ps) :=
    fun ps h => Option.noConfusion h
  have h := C10_frame fsNone [] "" initState0
  exact ⟨hno, h.1 hno "servicename", h.2.1, h.2.2.1, h.2.2.2⟩

end Ogen
